import Mathlib

/-!
Shallow embedding of the M5TimerCAM timer-photo firmware (`src/main.cpp`)
and proofs about the claims of its specification.

The firmware's Arduino `String` values are modelled as `List Char`；mutable
globals (`lastPhotoTime`, the static button-press locals) are threaded as
explicit state; `millis()` readings and hardware results (camera capture,
WiFi status, socket writes, HTTP response lines) are supplied by explicit
environment records, so every function of the firmware becomes a pure,
executable Lean function.  All `unsigned long` arithmetic on `millis()`
differences is performed modulo 2^32 (`usub32`), as on the ESP32.
-/

/-- Modulus of the 32-bit `unsigned long` arithmetic used by `millis()`. -/
def u32Mod : Nat := 4294967296

/-- Wrapping 32-bit subtraction `a - b`, as computed on `unsigned long`. -/
def usub32 (a b : Nat) : Nat := (a % u32Mod + (u32Mod - b % u32Mod)) % u32Mod

/-- Characters removed by Arduino `String::trim` (C `isspace`). -/
def isSpaceB (c : Char) : Bool :=
  decide (c = ' ') || decide (c = '\t') || decide (c = '\n') ||
  decide (c = '\x0b') || decide (c = '\x0c') || decide (c = '\r')

/-- Model of Arduino `String::trim`: strip whitespace from both ends. -/
def trimQ (s : List Char) : List Char :=
  ((s.dropWhile isSpaceB).reverse.dropWhile isSpaceB).reverse

/-- Boolean test that `p` is a prefix of `s` (Arduino `String::startsWith`). -/
def prefixOfQ : List Char → List Char → Bool
  | [], _ => true
  | _ :: _, [] => false
  | a :: ps, b :: ss => decide (a = b) && prefixOfQ ps ss

/-- Index of the first occurrence of `p` inside `s`, if any
(the search underlying Arduino `String::indexOf`). -/
def idxOfQ (p : List Char) : List Char → Option Nat
  | [] => if prefixOfQ p [] then some 0 else none
  | c :: rest =>
    if prefixOfQ p (c :: rest) then some 0
    else (idxOfQ p rest).map (· + 1)

/-- Arduino `String::indexOf`: first index of `p` in `s`, `-1` when absent. -/
def idxOfInt (p s : List Char) : Int :=
  match idxOfQ p s with
  | some n => (n : Int)
  | none => -1

/-- Pattern `"HTTP/1.1"` from `line.startsWith("HTTP/1.1")` (main.cpp:622). -/
def httpSig : List Char := ['H', 'T', 'T', 'P', '/', '1', '.', '1']

/-- Pattern `"200"` from `line.indexOf("200")` (main.cpp:627). -/
def pat200 : List Char := ['2', '0', '0']

/-- Pattern `"201"` from `line.indexOf("201")` (main.cpp:627). -/
def pat201 : List Char := ['2', '0', '1']

/-- Success test applied to one trimmed response line (main.cpp:622-629):
the line must start with `HTTP/1.1` and contain `200` or `201` at a
strictly positive index (`indexOf(..) > 0` in the source). -/
def statusCheck (t : List Char) : Bool :=
  prefixOfQ httpSig t &&
    (decide (0 < idxOfInt pat200 t) || decide (0 < idxOfInt pat201 t))

/-- Response-header loop of `uploadPhotoToSupabase` (main.cpp:618-636): each
line is trimmed, a line passing `statusCheck` latches `success`, and an
empty (trimmed) line terminates the loop. -/
def processHeaders : List (List Char) → Bool → Bool
  | [], acc => acc
  | line :: rest, acc =>
    let t := trimQ line
    let acc2 := acc || statusCheck t
    if t.length = 0 then acc2 else processHeaders rest acc2

/-- Connection retry loop of `uploadPhotoToSupabase` (main.cpp:522-542):
attempt `client.connect` while attempts remain and not yet connected.
Returns (connected, number of attempts made); `ok i` is the result of the
`i`-th `client.connect` call. -/
def connectLoop (ok : Nat → Bool) : Nat → Nat → Bool × Nat
  | _, 0 => (false, 0)
  | i, n + 1 =>
    if ok i then (true, 1)
    else
      let r := connectLoop ok (i + 1) n
      (r.1, r.2 + 1)

/-- Chunked-write loop of `uploadPhotoToSupabase` (main.cpp:570-599),
structurally recursive on a fuel bound (each iteration sends at least one
byte, so fuel = initial remaining suffices).  `w k req` is the value
returned by the `k`-th `client.write` call when asked to write `req`
bytes.  Returns (loop completed, list of requested chunk sizes). -/
def streamChunksAux (w : Nat → Nat → Nat) : Nat → Nat → Nat → Bool × List Nat
  | 0, _, _ => (true, [])
  | fuel + 1, c, remaining =>
    if remaining = 0 then (true, [])
    else
      let chunk := min 1024 remaining
      if w c chunk = chunk then
        let r := streamChunksAux w fuel (c + 1) (remaining - chunk)
        (r.1, chunk :: r.2)
      else (false, [chunk])

/-- The chunked-write loop on `N` payload bytes, write calls numbered from `c`. -/
def streamChunks (w : Nat → Nat → Nat) (c N : Nat) : Bool × List Nat :=
  streamChunksAux w N c N

/-- The chunk sizes the loop requests for an `N`-byte payload: call `i`
requests `min 1024 (N - 1024*i)` bytes, where `N - 1024*i` is the number of
bytes remaining before the call; there are `⌈N / 1024⌉` calls. -/
def chunkSched (N : Nat) : List Nat :=
  (List.range ((N + 1023) / 1024)).map (fun i => min 1024 (N - 1024 * i))

/-- Index of the first write call (numbered from `c`) that returns fewer
bytes than the scheduled chunk size, if any. -/
def firstShortWrite (w : Nat → Nat → Nat) (c N : Nat) : Option Nat :=
  (List.range ((N + 1023) / 1024)).find?
    (fun i => ! decide (w (c + i) (min 1024 (N - 1024 * i)) = min 1024 (N - 1024 * i)))

/-- Environment of one `uploadPhotoToSupabase` call: WiFi association state,
per-attempt `client.connect` results, per-call `client.write` results,
whether a first response byte arrives within the 15 s window, and the
response lines delivered by `client.readStringUntil`. -/
structure UploadEnv where
  wifiConnected : Bool
  connectOk : Nat → Bool
  write : Nat → Nat → Nat
  responseArrives : Bool
  responseLines : List (List Char)

/-- Observable outcome of one `uploadPhotoToSupabase` call: the returned
Bool, how many `client.connect` calls were made, the sizes requested from
`client.write`, and whether `client.stop()` ran before returning. -/
structure UploadOutcome where
  ok : Bool
  connectAttempts : Nat
  writeCalls : List Nat
  stopped : Bool
deriving DecidableEq

/-- Embedding of `uploadPhotoToSupabase` (main.cpp:489-658).  In order:
the `WiFi.status() != WL_CONNECTED` fail-fast (490-493), the
`imageData == nullptr || imageSize == 0` fail-fast (495-498), the
3-attempt connection loop (522-547), the chunked write loop (570-599)
aborting with `client.stop()` on a short write (578-587), the 15 s
response wait (604-612) stopping on timeout, and the status-line scan
(614-636) followed by the unconditional `client.stop()` (648). -/
def uploadPhotoToSupabase (env : UploadEnv) (imageDataNull : Bool) (imageSize : Nat) :
    UploadOutcome :=
  if env.wifiConnected = false then ⟨false, 0, [], false⟩
  else if imageDataNull || decide (imageSize = 0) then ⟨false, 0, [], false⟩
  else
    let conn := connectLoop env.connectOk 0 3
    if conn.1 = false then ⟨false, conn.2, [], false⟩
    else
      let stream := streamChunks env.write 0 imageSize
      if stream.1 = false then ⟨false, conn.2, stream.2, true⟩
      else if env.responseArrives = false then ⟨false, conn.2, stream.2, true⟩
      else ⟨processHeaders env.responseLines false, conn.2, stream.2, true⟩

/-- Hardware environment of one `takePhoto` call: free heap at entry, the
result of `TimerCAM.Camera.get()`, and the captured frame's length and
buffer-null flag. -/
structure CamEnv where
  freeHeap : Nat
  getOk : Bool
  fbLen : Nat
  fbNull : Bool

/-- Observable outcome of `takePhoto`: its returned Bool, whether
`TimerCAM.Camera.get()` was invoked, whether a frame was acquired, and how
many times `TimerCAM.Camera.free()` ran inside `takePhoto`. -/
structure PhotoResult where
  ok : Bool
  captureInvoked : Bool
  acquired : Bool
  frees : Nat
deriving DecidableEq

/-- Embedding of `takePhoto` (main.cpp:71-109): heap guard below 20000
bytes (73-76), `TimerCAM.Camera.get()` (78), then the three validity
checks in source order — zero length (82-86), length above 500000 (88-92),
null buffer (95-99) — each freeing the frame and returning false. -/
def takePhoto (e : CamEnv) : PhotoResult :=
  if e.freeHeap < 20000 then ⟨false, false, false, 0⟩
  else if e.getOk then
    if e.fbLen = 0 then ⟨false, true, true, 1⟩
    else if 500000 < e.fbLen then ⟨false, true, true, 1⟩
    else if e.fbNull then ⟨false, true, true, 1⟩
    else ⟨true, true, true, 0⟩
  else ⟨false, true, false, 0⟩

/-- Environment of one `takeAndUploadPhoto` call: camera environment, the
`WiFi.status()` check at main.cpp:432, the `connectToWiFi()` result at
main.cpp:434, and the upload environment. -/
structure RunEnv where
  cam : CamEnv
  wifiConnected : Bool
  reconnectOk : Bool
  up : UploadEnv

/-- Observable outcome of `takeAndUploadPhoto`: whether
`uploadPhotoToSupabase` was called and with what result, the total number
of `TimerCAM.Camera.free()` calls on this path (inside `takePhoto` plus
main.cpp:444 and main.cpp:481), and the inner `takePhoto` outcome. -/
structure RunResult where
  uploadAttempted : Bool
  uploadOk : Bool
  frees : Nat
  photo : PhotoResult
deriving DecidableEq

/-- Embedding of `takeAndUploadPhoto` (main.cpp:425-486): on a valid
frame, reconnect WiFi if needed — releasing the frame and returning on
failure (432-446) — otherwise upload and then release the frame (457-481);
on `takePhoto` failure only the LED is cleared (482-485). -/
def takeAndUploadPhoto (e : RunEnv) : RunResult :=
  let p := takePhoto e.cam
  if p.ok then
    if e.wifiConnected = false && e.reconnectOk = false then
      ⟨false, false, p.frees + 1, p⟩
    else
      let u := uploadPhotoToSupabase e.up e.cam.fbNull e.cam.fbLen
      ⟨true, u.ok, p.frees + 1, p⟩
  else ⟨false, false, p.frees, p⟩

/-- Mutable state surviving between `loop` iterations: the global
`lastPhotoTime` (main.cpp:33) and the static locals `buttonPressed` and
`buttonPressTime` (main.cpp:336-337). -/
structure LoopState where
  lastPhotoTime : Nat
  buttonPressed : Bool
  buttonPressTime : Nat

/-- Inputs of one `loop` iteration: the GPIO-4 level
(`digitalRead == LOW`), the `millis()` value read in the button section,
the `millis()` value read at the interval check (main.cpp:381), the
`millis()` value read after the scheduled capture returns (main.cpp:384),
and the configured `PHOTO_INTERVAL`. -/
structure TickEnv where
  pinLow : Bool
  tNow : Nat
  tSched : Nat
  tReset : Nat
  interval : Nat

/-- Observable outcome of one `loop` iteration: the successor state, how
many `takeAndUploadPhoto` calls the button section and the scheduler
section made, whether `handleShutdown` ran (deep sleep), and whether
`enterLightSleep` ran. -/
structure TickResult where
  state : LoopState
  buttonCaptures : Nat
  schedCaptures : Nat
  shutdown : Bool
  lightSleep : Bool

/-- Scheduler section of `loop` (main.cpp:380-391): if
`millis() - lastPhotoTime >= PHOTO_INTERVAL` capture once and set
`lastPhotoTime = millis()` afterwards; otherwise light-sleep when more
than 60000 ms remain until the next scheduled capture. -/
def schedStep (env : TickEnv) (s : LoopState) : TickResult :=
  let elapsed := usub32 env.tSched s.lastPhotoTime
  if env.interval ≤ elapsed then
    ⟨{ s with lastPhotoTime := env.tReset }, 0, 1, false, false⟩
  else if 60000 < usub32 env.interval elapsed then
    ⟨s, 0, 0, false, true⟩
  else
    ⟨s, 0, 0, false, false⟩

/-- Embedding of one `loop` iteration (main.cpp:334-422).  Button section
(340-378): a low pin starts a press or — when the held duration strictly
exceeds 3000 ms — runs `handleShutdown` and returns; a high pin after a
press shorter than 3000 ms captures immediately.  Unless shut down, the
scheduler section (`schedStep`) then runs.  The 5-minute debug printout
(393-419) has no observable effect and is omitted. -/
def loopTick (env : TickEnv) (s : LoopState) : TickResult :=
  if env.pinLow then
    if s.buttonPressed = false then
      schedStep env { s with buttonPressed := true, buttonPressTime := env.tNow }
    else if 3000 < usub32 env.tNow s.buttonPressTime then
      ⟨s, 0, 0, true, false⟩
    else
      schedStep env s
  else
    if s.buttonPressed then
      let dur := usub32 env.tNow s.buttonPressTime
      let r := schedStep env { s with buttonPressed := false }
      if dur < 3000 then { r with buttonCaptures := r.buttonCaptures + 1 } else r
    else
      schedStep env { s with buttonPressed := false }

/-- Environment of the camera-initialization section of `setup`:
the result of `TimerCAM.Camera.begin()` (main.cpp:248). -/
structure SetupEnv where
  cameraBeginOk : Bool

/-- Observable outcome of the camera-initialization section of `setup`:
how many LED toggles the failure blink performed, whether the camera came
up, and whether `setup` hangs forever (it never does: on failure the
10-iteration blink loop runs and `setup` returns, so `loop` still runs
and the device stays powered). -/
structure SetupResult where
  ledToggles : Nat
  cameraReady : Bool
  halted : Bool
deriving DecidableEq

/-- The error blink loop of `setup` (main.cpp:251-254): `n` iterations,
each toggling the LED once; returns (toggle count, final LED level). -/
def failBlinkLoop (led : Bool) : Nat → Nat × Bool
  | 0 => (0, led)
  | n + 1 =>
    let r := failBlinkLoop (! led) n
    (r.1 + 1, r.2)

/-- Embedding of the camera-initialization section of `setup`
(main.cpp:247-257): on `TimerCAM.Camera.begin()` failure, blink the LED
for exactly 10 loop iterations (the LED was set HIGH at main.cpp:223) and
return from `setup`; on success continue with the camera ready. -/
def setupCameraSection (e : SetupEnv) : SetupResult :=
  if e.cameraBeginOk then ⟨0, true, false⟩
  else ⟨(failBlinkLoop true 10).1, false, false⟩

theorem prefixOfQ_iff (p : List Char) :
    ∀ s : List Char, prefixOfQ p s = true ↔ ∃ t, s = p ++ t := by
  induction p with
  | nil =>
    intro s
    simp [prefixOfQ]
  | cons a ps ih =>
    intro s
    cases s with
    | nil =>
      simp [prefixOfQ]
    | cons b ss =>
      simp only [prefixOfQ, Bool.and_eq_true, decide_eq_true_eq, ih ss]
      constructor
      · rintro ⟨rfl, t, rfl⟩
        exact ⟨t, rfl⟩
      · rintro ⟨t, h⟩
        cases h
        exact ⟨rfl, t, rfl⟩

theorem idxOfQ_isSome_iff (p : List Char) :
    ∀ s : List Char, (∃ l r, s = l ++ p ++ r) ↔ ∃ n, idxOfQ p s = some n := by
  intro s
  induction s with
  | nil =>
    simp only [idxOfQ]
    constructor
    · rintro ⟨l, r, h⟩
      have hl : l = [] := by
        cases l with
        | nil => rfl
        | cons x xs => simp at h
      subst hl
      have hp : p = [] := by
        cases p with
        | nil => rfl
        | cons x xs => simp at h
      subst hp
      exact ⟨0, by simp [prefixOfQ]⟩
    · rintro ⟨n, h⟩
      by_cases hp : prefixOfQ p ([] : List Char) = true
      · obtain ⟨t, ht⟩ := (prefixOfQ_iff p []).1 hp
        refine ⟨[], t, ?_⟩
        simpa using ht
      · simp [hp] at h
  | cons c rest ih =>
    by_cases hp : prefixOfQ p (c :: rest) = true
    · obtain ⟨t, ht⟩ := (prefixOfQ_iff p (c :: rest)).1 hp
      constructor
      · intro _
        exact ⟨0, by simp [idxOfQ, hp]⟩
      · intro _
        exact ⟨[], t, by simpa using ht⟩
    · constructor
      · rintro ⟨l, r, h⟩
        cases l with
        | nil =>
          exact absurd ((prefixOfQ_iff p (c :: rest)).2 ⟨r, by simpa using h⟩) hp
        | cons x xs =>
          have h' : c :: rest = x :: (xs ++ p ++ r) := by simpa using h
          injection h' with h1 h2
          obtain ⟨n, hn⟩ := ih.1 ⟨xs, r, h2⟩
          refine ⟨n + 1, ?_⟩
          simp [idxOfQ, hp, hn]
      · rintro ⟨n, hn⟩
        simp only [idxOfQ, hp, if_false] at hn
        rcases hm : idxOfQ p rest with _ | m
        · rw [hm] at hn
          simp at hn
        · obtain ⟨l, r, hr⟩ := ih.2 ⟨m, hm⟩
          exact ⟨c :: l, r, by simp [hr]⟩

theorem idxOfQ_eq_some_zero {p s : List Char} (h : idxOfQ p s = some 0) :
    prefixOfQ p s = true := by
  cases s with
  | nil =>
    by_cases hp : prefixOfQ p ([] : List Char) = true
    · exact hp
    · simp [idxOfQ, hp] at h
  | cons c rest =>
    by_cases hp : prefixOfQ p (c :: rest) = true
    · exact hp
    · exfalso
      simp only [idxOfQ, hp, if_false] at h
      rcases hm : idxOfQ p rest with _ | m
      · rw [hm] at h
        simp at h
      · rw [hm] at h
        simp at h

theorem idxOfInt_pos {p s : List Char}
    (hc : ∃ l r, s = l ++ p ++ r) (hnp : prefixOfQ p s = false) :
    0 < idxOfInt p s := by
  obtain ⟨n, hn⟩ := (idxOfQ_isSome_iff p s).1 hc
  have hn0 : n ≠ 0 := by
    intro h0
    subst h0
    rw [idxOfQ_eq_some_zero hn] at hnp
    exact Bool.true_eq_false.mp hnp
  simp only [idxOfInt, hn]
  exact_mod_cast Nat.pos_of_ne_zero hn0

theorem idxOfInt_neg {p s : List Char}
    (hc : ¬ ∃ l r, s = l ++ p ++ r) : idxOfInt p s = -1 := by
  rcases h : idxOfQ p s with _ | n
  · simp [idxOfInt, h]
  · exact absurd ((idxOfQ_isSome_iff p s).2 ⟨n, h⟩) hc

theorem chunkSched_length (N : Nat) : (chunkSched N).length = (N + 1023) / 1024 := by
  simp [chunkSched]

theorem chunkSched_cons {N : Nat} (h : 0 < N) :
    chunkSched N = min 1024 N :: chunkSched (N - min 1024 N) := by
  have hlen : (N + 1023) / 1024 = ((N - min 1024 N) + 1023) / 1024 + 1 := by omega
  have hmap : (fun i => min 1024 (N - 1024 * i)) ∘ Nat.succ
      = (fun i => min 1024 ((N - min 1024 N) - 1024 * i)) := by
    funext i
    simp only [Function.comp_apply]
    omega
  unfold chunkSched
  rw [hlen, List.range_succ_eq_map, List.map_cons, List.map_map, hmap]
  simp

theorem firstShortWrite_cons (w : Nat → Nat → Nat) (c : Nat) {N : Nat} (h : 0 < N) :
    firstShortWrite w c N =
      (if w c (min 1024 N) = min 1024 N
       then (firstShortWrite w (c + 1) (N - min 1024 N)).map (· + 1)
       else some 0) := by
  have hlen : (N + 1023) / 1024 = ((N - min 1024 N) + 1023) / 1024 + 1 := by omega
  unfold firstShortWrite
  rw [hlen, List.range_succ_eq_map]
  by_cases hw : w c (min 1024 N) = min 1024 N
  · rw [List.find?_cons_of_neg _ (by simp [hw]), if_pos hw, List.find?_map]
    have hpred : ((fun i =>
          ! decide (w (c + i) (min 1024 (N - 1024 * i)) = min 1024 (N - 1024 * i)))
            ∘ Nat.succ)
        = (fun i => ! decide (w (c + 1 + i) (min 1024 ((N - min 1024 N) - 1024 * i))
            = min 1024 ((N - min 1024 N) - 1024 * i))) := by
      funext i
      simp only [Function.comp_apply]
      have e1 : c + Nat.succ i = c + 1 + i := by omega
      have e2 : N - 1024 * Nat.succ i = (N - min 1024 N) - 1024 * i := by omega
      rw [e1, e2]
    rw [hpred]
  · rw [List.find?_cons_of_pos _ (by simp [hw]), if_neg hw]

theorem streamChunksAux_spec (w : Nat → Nat → Nat) :
    ∀ fuel c N, N ≤ fuel →
      streamChunksAux w fuel c N =
        (match firstShortWrite w c N with
         | none => (true, chunkSched N)
         | some k => (false, (chunkSched N).take (k + 1))) := by
  intro fuel
  induction fuel with
  | zero =>
    intro c N hN
    have h0 : N = 0 := by omega
    subst h0
    rfl
  | succ fuel ih =>
    intro c N hN
    by_cases h0 : N = 0
    · subst h0
      rfl
    · have hpos : 0 < N := Nat.pos_of_ne_zero h0
      have hstep : streamChunksAux w (fuel + 1) c N =
          (if w c (min 1024 N) = min 1024 N
           then
             let r := streamChunksAux w fuel (c + 1) (N - min 1024 N)
             (r.1, min 1024 N :: r.2)
           else (false, [min 1024 N])) := by
        show (if N = 0 then (true, ([] : List Nat))
          else
            let chunk := min 1024 N
            if w c chunk = chunk then
              let r := streamChunksAux w fuel (c + 1) (N - chunk)
              (r.1, chunk :: r.2)
            else (false, [chunk])) = _
        rw [if_neg h0]
      rw [hstep, firstShortWrite_cons w c hpos, chunkSched_cons hpos]
      by_cases hw : w c (min 1024 N) = min 1024 N
      · rw [if_pos hw, if_pos hw,
          ih (c + 1) (N - min 1024 N) (by omega)]
        rcases hf : firstShortWrite w (c + 1) (N - min 1024 N) with _ | k
        · simp
        · simp [List.take_succ_cons]
      · rw [if_neg hw, if_neg hw]
        simp

theorem streamChunks_spec (w : Nat → Nat → Nat) (c N : Nat) :
    streamChunks w c N =
      (match firstShortWrite w c N with
       | none => (true, chunkSched N)
       | some k => (false, (chunkSched N).take (k + 1))) :=
  streamChunksAux_spec w N c N (Nat.le_refl N)

theorem firstShortWrite_none {w : Nat → Nat → Nat} {c N : Nat}
    (hw : ∀ i r, w i r = r) : firstShortWrite w c N = none := by
  unfold firstShortWrite
  rw [List.find?_eq_none]
  intro i _
  simp [hw]

theorem streamChunks_exact {w : Nat → Nat → Nat} {N : Nat}
    (hw : ∀ i r, w i r = r) : streamChunks w 0 N = (true, chunkSched N) := by
  rw [streamChunks_spec, firstShortWrite_none hw]

theorem connectLoop_attempts_pos (ok : Nat → Bool) (i n : Nat) (h : 0 < n) :
    1 ≤ (connectLoop ok i n).2 := by
  cases n with
  | zero => omega
  | succ m =>
    simp only [connectLoop]
    by_cases hok : ok i
    · simp [hok]
    · simp [hok]

theorem upload_reaches_stream (env : UploadEnv) (N : Nat)
    (h1 : env.wifiConnected = true) (h2 : 0 < N)
    (h3 : (connectLoop env.connectOk 0 3).1 = true) :
    uploadPhotoToSupabase env false N =
      (let stream := streamChunks env.write 0 N
       if stream.1 = false then
         ⟨false, (connectLoop env.connectOk 0 3).2, stream.2, true⟩
       else if env.responseArrives = false then
         ⟨false, (connectLoop env.connectOk 0 3).2, stream.2, true⟩
       else ⟨processHeaders env.responseLines false,
             (connectLoop env.connectOk 0 3).2, stream.2, true⟩) := by
  unfold uploadPhotoToSupabase
  rw [h1]
  simp [h2.ne', h3]

theorem statusCheck_true {t : List Char}
    (hpre : prefixOfQ httpSig t = true)
    (hc : (∃ l r, t = l ++ pat200 ++ r) ∨ (∃ l r, t = l ++ pat201 ++ r)) :
    statusCheck t = true := by
  obtain ⟨u, hu⟩ := (prefixOfQ_iff httpSig t).1 hpre
  have hv : t = 'H' :: (['T', 'T', 'P', '/', '1', '.', '1'] ++ u) := by
    rw [hu]
    rfl
  have h200 : prefixOfQ pat200 t = false := by
    rw [hv]
    simp [prefixOfQ, pat200]
  have h201 : prefixOfQ pat201 t = false := by
    rw [hv]
    simp [prefixOfQ, pat201]
  unfold statusCheck
  rw [hpre]
  rcases hc with hc | hc
  · have hpos := idxOfInt_pos hc h200
    simp [hpos]
  · have hpos := idxOfInt_pos hc h201
    simp [hpos]

theorem statusCheck_false {t : List Char}
    (h200 : ¬ ∃ l r, t = l ++ pat200 ++ r)
    (h201 : ¬ ∃ l r, t = l ++ pat201 ++ r) :
    statusCheck t = false := by
  unfold statusCheck
  rw [idxOfInt_neg h200, idxOfInt_neg h201]
  simp

theorem processHeaders_acc_true : ∀ L, processHeaders L true = true := by
  intro L
  induction L with
  | nil => rfl
  | cons a rest ih =>
    simp only [processHeaders, Bool.true_or]
    split
    · rfl
    · exact ih

theorem processHeaders_all_false :
    ∀ L, (∀ t ∈ L, statusCheck (trimQ t) = false) → processHeaders L false = false := by
  intro L
  induction L with
  | nil =>
    intro _
    rfl
  | cons a rest ih =>
    intro h
    have ha := h a (List.mem_cons_self a rest)
    simp only [processHeaders, ha, Bool.or_false]
    split
    · rfl
    · exact ih (fun t ht => h t (List.mem_cons_of_mem a ht))

theorem statusCheck_false_of_not_status {t : List Char}
    (h : prefixOfQ httpSig t = false) : statusCheck t = false := by
  unfold statusCheck
  rw [h]
  rfl

theorem not_contains_of_idxOfQ_none {p s : List Char} (h : idxOfQ p s = none) :
    ¬ ∃ l r, s = l ++ p ++ r := by
  intro hc
  obtain ⟨n, hn⟩ := (idxOfQ_isSome_iff p s).1 hc
  rw [h] at hn
  exact Option.noConfusion hn

theorem loopTick_cases (env : TickEnv) (s : LoopState) :
    loopTick env s = ⟨s, 0, 0, true, false⟩ ∨
    ∃ s' : LoopState, s'.lastPhotoTime = s.lastPhotoTime ∧
      (loopTick env s).state = (schedStep env s').state ∧
      (loopTick env s).shutdown = (schedStep env s').shutdown ∧
      (loopTick env s).schedCaptures = (schedStep env s').schedCaptures := by
  by_cases hp : env.pinLow <;> by_cases hb : s.buttonPressed
  · by_cases hd : 3000 < usub32 env.tNow s.buttonPressTime
    · left
      simp [loopTick, hp, hb, hd]
    · right
      exact ⟨s, rfl, by simp [loopTick, hp, hb, hd], by simp [loopTick, hp, hb, hd],
        by simp [loopTick, hp, hb, hd]⟩
  · right
    exact ⟨{ s with buttonPressed := true, buttonPressTime := env.tNow }, rfl,
      by simp [loopTick, hp, hb], by simp [loopTick, hp, hb], by simp [loopTick, hp, hb]⟩
  · right
    refine ⟨{ s with buttonPressed := false }, rfl, ?_, ?_, ?_⟩ <;>
      by_cases hd : usub32 env.tNow s.buttonPressTime < 3000 <;>
        simp [loopTick, hp, hb, hd]
  · right
    exact ⟨{ s with buttonPressed := false }, rfl,
      by simp [loopTick, hp, hb], by simp [loopTick, hp, hb], by simp [loopTick, hp, hb]⟩

theorem takePhoto_oversize (cam : CamEnv) (h : 500000 < cam.fbLen) :
    (takePhoto cam).ok = false := by
  unfold takePhoto
  split_ifs <;> rfl

theorem schedStep_buttonCaptures (env : TickEnv) (s : LoopState) :
    (schedStep env s).buttonCaptures = 0 := by
  simp only [schedStep]
  split_ifs <;> rfl

theorem schedStep_shutdown (env : TickEnv) (s : LoopState) :
    (schedStep env s).shutdown = false := by
  simp only [schedStep]
  split_ifs <;> rfl

theorem schedStep_lightSleep (env : TickEnv) (s : LoopState) :
    (schedStep env s).lightSleep = true ↔
      (usub32 env.tSched s.lastPhotoTime < env.interval ∧
       60000 < usub32 env.interval (usub32 env.tSched s.lastPhotoTime)) := by
  simp only [schedStep]
  split_ifs with h1 h2 <;> simp <;> omega

theorem schedStep_state_lastPhotoTime (env : TickEnv) (s : LoopState) :
    (schedStep env s).state.lastPhotoTime =
      (if env.interval ≤ usub32 env.tSched s.lastPhotoTime
       then env.tReset else s.lastPhotoTime) := by
  simp only [schedStep]
  split_ifs <;> rfl

theorem schedStep_schedCaptures (env : TickEnv) (s : LoopState) :
    (schedStep env s).schedCaptures =
      (if env.interval ≤ usub32 env.tSched s.lastPhotoTime then 1 else 0) := by
  simp only [schedStep]
  split_ifs <;> rfl

theorem schedStep_state_buttonPressed (env : TickEnv) (s : LoopState) :
    (schedStep env s).state.buttonPressed = s.buttonPressed := by
  simp only [schedStep]
  split_ifs <;> rfl

/-- C1 counterexample: with WiFi associated and a non-null buffer, a frame
length of 500001 — above the claimed 500000 bound — does not make
`uploadPhotoToSupabase` fail without a connection attempt: the call runs
its full 3-attempt connection loop (here every attempt fails), so it does
attempt connections, contradicting the claim's "fails immediately ...
without attempting any connection" for L > 500000. -/
theorem c1_counterexample :
    (uploadPhotoToSupabase ⟨true, fun _ => false, fun _ r => r, false, []⟩
        false 500001).connectAttempts = 3 ∧
    ¬ ((uploadPhotoToSupabase ⟨true, fun _ => false, fun _ r => r, false, []⟩
        false 500001).connectAttempts = 0) := by
  decide

/-- C1 (amended): `uploadPhotoToSupabase` fails immediately with no
connection attempt exactly when WiFi is not associated, the buffer is
null, or the length is zero; for every positive length — including
lengths above 500000 — it attempts at least one connection.  The 500000
upper bound is enforced upstream by `takePhoto`, which frees an oversized
frame and returns false, so `takeAndUploadPhoto` never calls the upload
with such a frame. -/
theorem c1_upload_size_gate (env : UploadEnv) (bufNull : Bool) (L : Nat)
    (cam : CamEnv) (e : RunEnv) :
    (env.wifiConnected = false →
        uploadPhotoToSupabase env bufNull L = ⟨false, 0, [], false⟩) ∧
    (env.wifiConnected = true → bufNull = true ∨ L = 0 →
        uploadPhotoToSupabase env bufNull L = ⟨false, 0, [], false⟩) ∧
    (env.wifiConnected = true → bufNull = false → 0 < L →
        1 ≤ (uploadPhotoToSupabase env bufNull L).connectAttempts) ∧
    (500000 < cam.fbLen → (takePhoto cam).ok = false) ∧
    (500000 < e.cam.fbLen → (takeAndUploadPhoto e).uploadAttempted = false) := by
  refine ⟨?_, ?_, ?_, ?_, ?_⟩
  · intro h
    simp [uploadPhotoToSupabase, h]
  · intro h1 h2
    rcases h2 with h2 | h2 <;> simp [uploadPhotoToSupabase, h1, h2]
  · intro h1 hb hL
    subst hb
    have hpos := connectLoop_attempts_pos env.connectOk 0 3 (by omega)
    have h2 : ¬ (env.wifiConnected = false) := by
      rw [h1]
      simp
    have h3 : ¬ ((false || decide (L = 0)) = true) := by
      simp [hL.ne']
    have key : (uploadPhotoToSupabase env false L).connectAttempts
        = (connectLoop env.connectOk 0 3).2 := by
      simp only [uploadPhotoToSupabase]
      rw [if_neg h2, if_neg h3]
      split_ifs <;> rfl
    rw [key]
    exact hpos
  · intro h
    exact takePhoto_oversize cam h
  · intro h
    have hp : (takePhoto e.cam).ok = false := takePhoto_oversize e.cam h
    unfold takeAndUploadPhoto
    simp [hp]

/-- C1 witness: concrete instances of the amended statement — a zero
length fails fast with no connection attempt, a positive length (42)
makes at least one connection attempt, and a 500001-byte frame is
rejected by `takePhoto`. -/
theorem c1_witness :
    uploadPhotoToSupabase ⟨true, fun _ => true, fun _ r => r, false, []⟩ false 0
        = ⟨false, 0, [], false⟩ ∧
    1 ≤ (uploadPhotoToSupabase ⟨true, fun _ => true, fun _ r => r, false, []⟩
        false 42).connectAttempts ∧
    (takePhoto ⟨100000, true, 500001, false⟩).ok = false :=
  ⟨(c1_upload_size_gate ⟨true, fun _ => true, fun _ r => r, false, []⟩ false 0
      ⟨100000, true, 500001, false⟩
      ⟨⟨100000, true, 500001, false⟩, true, true,
        ⟨true, fun _ => true, fun _ r => r, false, []⟩⟩).2.1 rfl (Or.inr rfl),
   (c1_upload_size_gate ⟨true, fun _ => true, fun _ r => r, false, []⟩ false 42
      ⟨100000, true, 500001, false⟩
      ⟨⟨100000, true, 500001, false⟩, true, true,
        ⟨true, fun _ => true, fun _ r => r, false, []⟩⟩).2.2.1 rfl rfl (by decide),
   (c1_upload_size_gate ⟨true, fun _ => true, fun _ r => r, false, []⟩ false 0
      ⟨100000, true, 500001, false⟩
      ⟨⟨100000, true, 500001, false⟩, true, true,
        ⟨true, fun _ => true, fun _ r => r, false, []⟩⟩).2.2.2.1 (by decide)⟩

/-- C2: for every upload that reaches the response stage (WiFi up, valid
data, connection established, payload streamed, response arrived), with
the status line being the first response line (it starts with `HTTP/1.1`
after trimming) and the remaining header lines not being status lines:
if the status line contains `"200"` or `"201"` as a substring anywhere,
the upload reports success; if the status line contains neither
substring, the upload reports failure — even when another header line
(such as `Content-Length: 200`) contains one of the digit strings, since
lines not starting with `HTTP/1.1` never latch success.  The source's
`indexOf(..) > 0` test cannot miss an occurrence at index 0 because a
status line starts with `H`, not `2`. -/
theorem c2_status_substring (env : UploadEnv) (N : Nat) (line : List Char)
    (rest : List (List Char))
    (h1 : env.wifiConnected = true) (h2 : 0 < N)
    (h3 : (connectLoop env.connectOk 0 3).1 = true)
    (h4 : (streamChunks env.write 0 N).1 = true)
    (h5 : env.responseArrives = true)
    (h6 : env.responseLines = line :: rest)
    (h7 : prefixOfQ httpSig (trimQ line) = true) :
    (((∃ l r, trimQ line = l ++ pat200 ++ r) ∨ (∃ l r, trimQ line = l ++ pat201 ++ r)) →
        (uploadPhotoToSupabase env false N).ok = true) ∧
    ((¬ ∃ l r, trimQ line = l ++ pat200 ++ r) →
     (¬ ∃ l r, trimQ line = l ++ pat201 ++ r) →
     (∀ t ∈ rest, prefixOfQ httpSig (trimQ t) = false) →
        (uploadPhotoToSupabase env false N).ok = false) := by
  have hred : (uploadPhotoToSupabase env false N).ok
      = processHeaders env.responseLines false := by
    rw [upload_reaches_stream env N h1 h2 h3]
    simp [h4, h5]
  constructor
  · intro hc
    rw [hred, h6]
    have hs := statusCheck_true h7 hc
    simp only [processHeaders, hs, Bool.or_true]
    split
    · rfl
    · exact processHeaders_acc_true rest
  · intro h200 h201 hrest
    rw [hred, h6]
    apply processHeaders_all_false
    intro t ht
    rcases List.mem_cons.mp ht with rfl | ht
    · exact statusCheck_false h200 h201
    · exact statusCheck_false_of_not_status (hrest t ht)

/-- C2 witness: a run whose only response line is `HTTP/1.1 200 OK`
reports success, and a run whose response is `HTTP/1.1 404` followed by
the header line `Content-Length: 200` (which contains `200` but is not a
status line) reports failure. -/
theorem c2_witness :
    (uploadPhotoToSupabase
      ⟨true, fun _ => true, fun _ r => r, true,
        [['H', 'T', 'T', 'P', '/', '1', '.', '1', ' ', '2', '0', '0', ' ', 'O', 'K']]⟩
      false 1).ok = true ∧
    (uploadPhotoToSupabase
      ⟨true, fun _ => true, fun _ r => r, true,
        [['H', 'T', 'T', 'P', '/', '1', '.', '1', ' ', '4', '0', '4'],
         ['C', 'o', 'n', 't', 'e', 'n', 't', '-', 'L', 'e', 'n', 'g', 't', 'h',
          ':', ' ', '2', '0', '0']]⟩
      false 1).ok = false :=
  ⟨(c2_status_substring
      ⟨true, fun _ => true, fun _ r => r, true,
        [['H', 'T', 'T', 'P', '/', '1', '.', '1', ' ', '2', '0', '0', ' ', 'O', 'K']]⟩
      1 ['H', 'T', 'T', 'P', '/', '1', '.', '1', ' ', '2', '0', '0', ' ', 'O', 'K'] []
      rfl (by decide) rfl rfl rfl rfl (by decide)).1
    (Or.inl ⟨['H', 'T', 'T', 'P', '/', '1', '.', '1', ' '], [' ', 'O', 'K'], by decide⟩),
   (c2_status_substring
      ⟨true, fun _ => true, fun _ r => r, true,
        [['H', 'T', 'T', 'P', '/', '1', '.', '1', ' ', '4', '0', '4'],
         ['C', 'o', 'n', 't', 'e', 'n', 't', '-', 'L', 'e', 'n', 'g', 't', 'h',
          ':', ' ', '2', '0', '0']]⟩
      1 ['H', 'T', 'T', 'P', '/', '1', '.', '1', ' ', '4', '0', '4']
      [['C', 'o', 'n', 't', 'e', 'n', 't', '-', 'L', 'e', 'n', 'g', 't', 'h',
        ':', ' ', '2', '0', '0']]
      rfl (by decide) rfl rfl rfl rfl (by decide)).2
    (not_contains_of_idxOfQ_none (by decide))
    (not_contains_of_idxOfQ_none (by decide))
    (by decide)⟩

/-- C3: for any upload that reaches the streaming stage, (a) through a
socket accepting exactly the requested length on each call, the payload of
N bytes is sent in exactly ⌈N/1024⌉ write calls (the call count `len`
satisfies N ≤ 1024*len < N + 1024) whose requested sizes are
`min 1024 (remaining)`; (b) if the k-th write call is the first to return
fewer bytes than requested, the upload returns failure immediately, the
connection is stopped before returning, and the write calls are exactly
the first k+1 scheduled chunks — no mid-stream retry. -/
theorem c3_chunked_write (env : UploadEnv) (N : Nat)
    (h1 : env.wifiConnected = true) (h2 : 0 < N)
    (h3 : (connectLoop env.connectOk 0 3).1 = true) :
    ((∀ i r, env.write i r = r) →
        (uploadPhotoToSupabase env false N).writeCalls = chunkSched N ∧
        (uploadPhotoToSupabase env false N).writeCalls.length = (N + 1023) / 1024 ∧
        N ≤ (uploadPhotoToSupabase env false N).writeCalls.length * 1024 ∧
        (uploadPhotoToSupabase env false N).writeCalls.length * 1024 < N + 1024) ∧
    (∀ k, firstShortWrite env.write 0 N = some k →
        (uploadPhotoToSupabase env false N).ok = false ∧
        (uploadPhotoToSupabase env false N).stopped = true ∧
        (uploadPhotoToSupabase env false N).writeCalls = (chunkSched N).take (k + 1)) := by
  constructor
  · intro hw
    have hs := streamChunks_exact (w := env.write) (N := N) hw
    have hcalls : (uploadPhotoToSupabase env false N).writeCalls = chunkSched N := by
      rw [upload_reaches_stream env N h1 h2 h3]
      by_cases hr : env.responseArrives = false <;> simp [hs, hr]
    have hlen : (uploadPhotoToSupabase env false N).writeCalls.length
        = (N + 1023) / 1024 := by
      rw [hcalls, chunkSched_length]
    refine ⟨hcalls, hlen, ?_, ?_⟩ <;> rw [hlen] <;> omega
  · intro k hk
    have hstream := streamChunks_spec env.write 0 N
    rw [hk] at hstream
    refine ⟨?_, ?_, ?_⟩ <;>
      (rw [upload_reaches_stream env N h1 h2 h3]; simp [hstream])

/-- C3 witness: a 2500-byte payload through an exact socket is streamed in
exactly 3 write calls of sizes 1024, 1024, 452. -/
theorem c3_witness :
    (uploadPhotoToSupabase ⟨true, fun _ => true, fun _ r => r, true, []⟩
        false 2500).writeCalls = chunkSched 2500 ∧
    (uploadPhotoToSupabase ⟨true, fun _ => true, fun _ r => r, true, []⟩
        false 2500).writeCalls.length = 3 ∧
    chunkSched 2500 = [1024, 1024, 452] :=
  have h := (c3_chunked_write ⟨true, fun _ => true, fun _ r => r, true, []⟩ 2500
      rfl (by decide) rfl).1 (fun _ _ => rfl)
  ⟨h.1, by rw [h.2.1], by decide⟩

/-- C4: on every exit path of `takeAndUploadPhoto` on which a frame was
acquired (`TimerCAM.Camera.get()` returned true) — upload success, upload
failure, WiFi-reconnection failure, or frame-validation rejection inside
`takePhoto` — `TimerCAM.Camera.free()` runs exactly once; when no frame
was acquired it never runs. -/
theorem c4_frame_release_once (e : RunEnv) :
    ((takeAndUploadPhoto e).photo.acquired = true → (takeAndUploadPhoto e).frees = 1) ∧
    ((takeAndUploadPhoto e).photo.acquired = false → (takeAndUploadPhoto e).frees = 0) := by
  simp only [takeAndUploadPhoto, takePhoto]
  split_ifs <;> simp_all

/-- C4 witness: a concrete run (valid frame, WiFi up, upload attempted)
frees the frame exactly once. -/
theorem c4_witness :
    (takeAndUploadPhoto ⟨⟨100000, true, 5000, false⟩, true, true,
        ⟨true, fun _ => true, fun _ r => r, true, []⟩⟩).frees = 1 :=
  (c4_frame_release_once ⟨⟨100000, true, 5000, false⟩, true, true,
      ⟨true, fun _ => true, fun _ r => r, true, []⟩⟩).1 (by decide)

/-- C5 counterexample: the claim fails on loop ticks with button
activity.  First input: a long-press tick (pin low, press held 5000 ms)
with elapsed 4000000 ms ≥ interval 3600000 ms runs `handleShutdown` and
returns before the scheduler section, so zero captures fire and
`lastPhotoTime` is not reset to the current time.  Second input: a
short-press release tick with elapsed ≥ interval triggers two captures
(button capture plus scheduled capture), not exactly one. -/
theorem c5_counterexample :
    ((loopTick ⟨true, 5000, 4000000, 4000001, 3600000⟩ ⟨0, true, 0⟩).schedCaptures = 0 ∧
     (loopTick ⟨true, 5000, 4000000, 4000001, 3600000⟩ ⟨0, true, 0⟩).buttonCaptures = 0 ∧
     (loopTick ⟨true, 5000, 4000000, 4000001, 3600000⟩ ⟨0, true, 0⟩).state.lastPhotoTime = 0 ∧
     (loopTick ⟨true, 5000, 4000000, 4000001, 3600000⟩ ⟨0, true, 0⟩).shutdown = true ∧
     3600000 ≤ usub32 4000000 0) ∧
    ((loopTick ⟨false, 1000, 4000000, 4000001, 3600000⟩ ⟨0, true, 0⟩).buttonCaptures +
       (loopTick ⟨false, 1000, 4000000, 4000001, 3600000⟩ ⟨0, true, 0⟩).schedCaptures = 2 ∧
     3600000 ≤ usub32 4000000 0) := by
  decide

/-- C5 (amended): on every loop tick that reaches the scheduler section
(i.e. that does not shut down via the long-press branch), if the elapsed
time since `lastPhotoTime` is at least the configured interval, exactly
one scheduled capture is triggered and `lastPhotoTime` is reset to the
time read after the capture returns — the tick never branches on the
capture's outcome, so the reset happens regardless of success or failure
(a concurrent short-press release on the same tick additionally triggers
its own, button-path capture); if the interval has not elapsed, no
scheduled capture fires and `lastPhotoTime` is unchanged, so a failed
capture is not retried before the next full interval.  On a long-press
shutdown tick the scheduler section is skipped entirely. -/
theorem c5_scheduler_tick (env : TickEnv) (s : LoopState) :
    ((loopTick env s).shutdown = false →
        env.interval ≤ usub32 env.tSched s.lastPhotoTime →
        (loopTick env s).schedCaptures = 1 ∧
        (loopTick env s).state.lastPhotoTime = env.tReset) ∧
    ((loopTick env s).shutdown = false →
        usub32 env.tSched s.lastPhotoTime < env.interval →
        (loopTick env s).schedCaptures = 0 ∧
        (loopTick env s).state.lastPhotoTime = s.lastPhotoTime) ∧
    ((loopTick env s).shutdown = true →
        (loopTick env s).schedCaptures = 0 ∧
        (loopTick env s).state.lastPhotoTime = s.lastPhotoTime) := by
  rcases loopTick_cases env s with hred | ⟨s', hs', hst, hsd, hsc⟩
  · rw [hred]
    refine ⟨fun h _ => ?_, fun h _ => ?_, fun _ => ⟨rfl, rfl⟩⟩ <;> simp at h
  · rw [hst, hsd, hsc]
    refine ⟨fun _ hdue => ⟨?_, ?_⟩, fun _ hlt => ⟨?_, ?_⟩, fun h => ?_⟩
    · rw [schedStep_schedCaptures, hs', if_pos hdue]
    · rw [schedStep_state_lastPhotoTime, hs', if_pos hdue]
    · rw [schedStep_schedCaptures, hs', if_neg (by omega)]
    · rw [schedStep_state_lastPhotoTime, hs', if_neg (by omega)]
    · rw [schedStep_shutdown] at h
      simp at h

/-- C5 witness: with a 3600000 ms interval, a non-shutdown tick at
elapsed 3600000 ms triggers exactly one scheduled capture and resets
`lastPhotoTime` to the post-capture time 3600005. -/
theorem c5_witness :
    (loopTick ⟨false, 0, 3600000, 3600005, 3600000⟩ ⟨0, false, 0⟩).schedCaptures = 1 ∧
    (loopTick ⟨false, 0, 3600000, 3600005, 3600000⟩ ⟨0, false, 0⟩).state.lastPhotoTime
        = 3600005 :=
  have h := (c5_scheduler_tick ⟨false, 0, 3600000, 3600005, 3600000⟩ ⟨0, false, 0⟩).1
      (by decide) (by decide)
  ⟨h.1, h.2⟩

/-- C6 counterexample: a press of exactly 3000 ms triggers neither action,
contrary to the claim that 3000 ms or more triggers the deep-sleep
transition.  A tick while the button is held with observed duration
exactly 3000 ms does not shut down (the source requires strictly more
than 3000), and the release tick at duration 3000 ms does not capture
(the source requires strictly less than 3000). -/
theorem c6_counterexample :
    (loopTick ⟨true, 3000, 3000, 0, 3600000⟩ ⟨0, true, 0⟩).shutdown = false ∧
    (loopTick ⟨false, 3000, 3000, 0, 3600000⟩ ⟨0, true, 0⟩).buttonCaptures = 0 ∧
    (loopTick ⟨false, 3000, 3000, 0, 3600000⟩ ⟨0, true, 0⟩).schedCaptures = 0 ∧
    (loopTick ⟨false, 3000, 3000, 0, 3600000⟩ ⟨0, true, 0⟩).shutdown = false := by
  decide

/-- C6 (amended): a release after a duration strictly below 3000 ms (such
as 2999 ms) triggers exactly one immediate capture; a release at 3000 ms
or more triggers no capture; the deep-sleep transition fires on a tick
while the button is held once the observed duration strictly exceeds
3000 ms; at an observed duration of exactly 3000 ms neither the capture
nor the deep-sleep transition is triggered. -/
theorem c6_press_classification (env : TickEnv) (s : LoopState) :
    (env.pinLow = false → s.buttonPressed = true →
        usub32 env.tNow s.buttonPressTime < 3000 →
        (loopTick env s).buttonCaptures = 1) ∧
    (env.pinLow = false → s.buttonPressed = true →
        3000 ≤ usub32 env.tNow s.buttonPressTime →
        (loopTick env s).buttonCaptures = 0) ∧
    (env.pinLow = true → s.buttonPressed = true →
        3000 < usub32 env.tNow s.buttonPressTime →
        (loopTick env s).shutdown = true ∧
        (loopTick env s).buttonCaptures = 0 ∧
        (loopTick env s).schedCaptures = 0) ∧
    (env.pinLow = true → s.buttonPressed = true →
        usub32 env.tNow s.buttonPressTime = 3000 →
        (loopTick env s).shutdown = false ∧
        (loopTick env s).buttonCaptures = 0) := by
  refine ⟨?_, ?_, ?_, ?_⟩
  · intro hpin hbp hd
    simp only [loopTick, hpin, hbp]
    simp [hd, schedStep_buttonCaptures]
  · intro hpin hbp hd
    simp only [loopTick, hpin, hbp]
    simp [Nat.not_lt.mpr hd, schedStep_buttonCaptures]
  · intro hpin hbp hd
    simp only [loopTick, hpin, hbp]
    simp [hd]
  · intro hpin hbp hd
    simp only [loopTick, hpin, hbp]
    simp [hd, schedStep_shutdown, schedStep_buttonCaptures]

/-- C6 witness: a release after 100 ms (strictly below 3000) triggers
exactly one immediate capture. -/
theorem c6_witness :
    (loopTick ⟨false, 100, 100, 0, 3600000⟩ ⟨0, true, 0⟩).buttonCaptures = 1 :=
  (c6_press_classification ⟨false, 100, 100, 0, 3600000⟩ ⟨0, true, 0⟩).1
    rfl rfl (by decide)

/-- C7 counterexample: the device does enter light sleep while a button
press is in progress.  On a tick where the pin is low and the press-hold
duration is 2000 ms (below the long-press threshold), with ample time
before the next capture, `enterLightSleep` runs while the press state is
still pending. -/
theorem c7_counterexample :
    (loopTick ⟨true, 2000, 2000, 0, 3600000⟩ ⟨0, true, 0⟩).lightSleep = true ∧
    (loopTick ⟨true, 2000, 2000, 0, 3600000⟩ ⟨0, true, 0⟩).state.buttonPressed = true := by
  decide

/-- C7 (amended): the transition to light sleep on a tick depends only on
the scheduler: it happens exactly when the tick did not shut down, the
elapsed time is below the interval, and more than 60000 ms remain before
the next scheduled capture — regardless of whether a press is pending. -/
theorem c7_light_sleep_guard (env : TickEnv) (s : LoopState) :
    (loopTick env s).lightSleep = true ↔
      ((loopTick env s).shutdown = false ∧
       usub32 env.tSched s.lastPhotoTime < env.interval ∧
       60000 < usub32 env.interval (usub32 env.tSched s.lastPhotoTime)) := by
  by_cases hp : env.pinLow <;> by_cases hb : s.buttonPressed
  · simp only [loopTick, hp, hb]
    by_cases hd : 3000 < usub32 env.tNow s.buttonPressTime
    · simp [hd]
    · simp only [hd, if_false]
      simp [schedStep_lightSleep, schedStep_shutdown]
  · simp only [loopTick, hp, hb]
    simp [schedStep_lightSleep, schedStep_shutdown]
  · simp only [loopTick, hp, hb]
    by_cases hd : usub32 env.tNow s.buttonPressTime < 3000 <;>
      simp [hd, schedStep_lightSleep, schedStep_shutdown, schedStep_buttonCaptures]
  · simp only [loopTick, hp, hb]
    simp [schedStep_lightSleep, schedStep_shutdown]

/-- C8 counterexample: on camera-initialization failure the LED blink is
not indefinite — the failure path performs exactly 10 LED toggles (a
bounded `for` loop of 10 iterations at 200 ms each) and `setup` returns
rather than hanging, so the blinking terminates. -/
theorem c8_counterexample :
    (setupCameraSection ⟨false⟩).ledToggles = 10 ∧
    ¬ ((setupCameraSection ⟨false⟩).halted = true) := by
  decide

/-- C8 (amended): if camera initialization fails at startup the LED blinks
rapidly for a bounded period (exactly 10 toggles, about 2 seconds), after
which `setup` returns with the capture subsystem down; the device remains
powered (it proceeds into `loop`) and hence responsive to later resets.
On success no failure blink occurs. -/
theorem c8_blink_finite :
    setupCameraSection ⟨false⟩ = ⟨10, false, false⟩ ∧
    setupCameraSection ⟨true⟩ = ⟨0, true, false⟩ := by
  decide

/-- C9 counterexample: a short-press (button-triggered) capture completes
on this tick, yet `lastPhotoTime` keeps its old value 500 instead of
being updated to the current time 1000 — the button path never touches
`lastPhotoTime`, contradicting the claim that it is updated after every
capture attempt. -/
theorem c9_counterexample :
    (loopTick ⟨false, 1000, 1000, 1000, 3600000⟩ ⟨500, true, 0⟩).buttonCaptures = 1 ∧
    (loopTick ⟨false, 1000, 1000, 1000, 3600000⟩ ⟨500, true, 0⟩).state.lastPhotoTime = 500 ∧
    ¬ ((loopTick ⟨false, 1000, 1000, 1000, 3600000⟩
        ⟨500, true, 0⟩).state.lastPhotoTime = 1000) := by
  decide

/-- C9 (amended): `lastPhotoTime` is updated (to the time read after the
capture returns) only by the scheduler path — on a tick that did not shut
down and whose elapsed time reached the interval; on every other tick,
including ticks whose short-press path runs a button-triggered capture,
it is unchanged.  (It is also initialized once at the end of `setup`,
main.cpp:319.) -/
theorem c9_lastPhotoTime_update (env : TickEnv) (s : LoopState) :
    ((loopTick env s).shutdown = true →
        (loopTick env s).state.lastPhotoTime = s.lastPhotoTime) ∧
    ((loopTick env s).shutdown = false →
        env.interval ≤ usub32 env.tSched s.lastPhotoTime →
        (loopTick env s).state.lastPhotoTime = env.tReset) ∧
    ((loopTick env s).shutdown = false →
        usub32 env.tSched s.lastPhotoTime < env.interval →
        (loopTick env s).state.lastPhotoTime = s.lastPhotoTime) := by
  have hcase : loopTick env s = ⟨s, 0, 0, true, false⟩ ∨
      ∃ s' : LoopState, s'.lastPhotoTime = s.lastPhotoTime ∧
        (loopTick env s).state = (schedStep env s').state ∧
        (loopTick env s).shutdown = (schedStep env s').shutdown := by
    by_cases hp : env.pinLow <;> by_cases hb : s.buttonPressed
    · by_cases hd : 3000 < usub32 env.tNow s.buttonPressTime
      · left
        simp [loopTick, hp, hb, hd]
      · right
        exact ⟨s, rfl, by simp [loopTick, hp, hb, hd], by simp [loopTick, hp, hb, hd]⟩
    · right
      exact ⟨{ s with buttonPressed := true, buttonPressTime := env.tNow }, rfl,
        by simp [loopTick, hp, hb], by simp [loopTick, hp, hb]⟩
    · right
      refine ⟨{ s with buttonPressed := false }, rfl, ?_, ?_⟩ <;>
        by_cases hd : usub32 env.tNow s.buttonPressTime < 3000 <;>
          simp [loopTick, hp, hb, hd]
    · right
      exact ⟨{ s with buttonPressed := false }, rfl,
        by simp [loopTick, hp, hb], by simp [loopTick, hp, hb]⟩
  rcases hcase with hred | ⟨s', hs', hst, hsd⟩
  · rw [hred]
    refine ⟨fun _ => rfl, fun h _ => ?_, fun h _ => ?_⟩ <;> simp at h
  · rw [hst, hsd]
    refine ⟨fun h => ?_, fun _ h => ?_, fun _ h => ?_⟩
    · rw [schedStep_shutdown] at h
      simp at h
    · rw [schedStep_state_lastPhotoTime, hs', if_pos h]
    · rw [schedStep_state_lastPhotoTime, hs', if_neg (by omega)]

/-- C9 witness: a scheduler-triggered tick (elapsed 4000000 ≥ interval
3600000) updates `lastPhotoTime` to the post-capture time 4000002. -/
theorem c9_witness :
    (loopTick ⟨false, 0, 4000000, 4000002, 3600000⟩ ⟨0, false, 0⟩).state.lastPhotoTime
        = 4000002 :=
  (c9_lastPhotoTime_update ⟨false, 0, 4000000, 4000002, 3600000⟩ ⟨0, false, 0⟩).2.1
    (by decide) (by decide)

/-- C10: if the free heap is below 20000 bytes when a capture is
attempted, `takePhoto` returns false without invoking
`TimerCAM.Camera.get()` at all — no frame is acquired, nothing is freed,
and `takeAndUploadPhoto` attempts no upload. -/
theorem c10_low_heap_guard (cam : CamEnv) (e : RunEnv)
    (h1 : cam.freeHeap < 20000) (h2 : e.cam.freeHeap < 20000) :
    takePhoto cam = ⟨false, false, false, 0⟩ ∧
    (takeAndUploadPhoto e).uploadAttempted = false ∧
    (takeAndUploadPhoto e).frees = 0 := by
  have hcam : takePhoto cam = ⟨false, false, false, 0⟩ := by
    unfold takePhoto
    rw [if_pos h1]
  have he : takePhoto e.cam = ⟨false, false, false, 0⟩ := by
    unfold takePhoto
    rw [if_pos h2]
  refine ⟨hcam, ?_, ?_⟩ <;> simp [takeAndUploadPhoto, he]

/-- C10 witness: with 100 bytes of free heap, `takePhoto` rejects the
capture without touching the sensor and the surrounding
`takeAndUploadPhoto` performs no upload. -/
theorem c10_witness :
    takePhoto ⟨100, true, 5000, false⟩ = ⟨false, false, false, 0⟩ ∧
    (takeAndUploadPhoto ⟨⟨100, true, 5000, false⟩, true, true,
        ⟨true, fun _ => true, fun _ r => r, true, []⟩⟩).uploadAttempted = false :=
  have h := c10_low_heap_guard ⟨100, true, 5000, false⟩
      ⟨⟨100, true, 5000, false⟩, true, true,
        ⟨true, fun _ => true, fun _ r => r, true, []⟩⟩
      (by decide) (by decide)
  ⟨h.1, h.2.1⟩
